import Mathlib

/-!
Verification of the pv-mounter mount/clean orchestration engine.

The Go source is shallowly embedded: Kubernetes API calls and subprocess
invocations are modelled as explicit `Except`/`Bool` inputs, strings stay
strings, and side effects (pod creation, ephemeral-container patches,
port-forward start/kill, local mount subprocesses) are recorded in explicit
event traces.  Where the repository keeps several historical snapshots of a
function, the newest revision is embedded (the one reachable from the
newest `Mount`).
-/

namespace PvMounter

/-! ## Core Kubernetes data model (corev1 fragments used by the plugin) -/

/-- The access-mode constant `corev1.ReadWriteOnce`. -/
def ReadWriteOnce : String := "ReadWriteOnce"

/-- The phase constant `corev1.ClaimBound`. -/
def ClaimBound : String := "Bound"

/-- A pod volume: `Name` plus the optional `PersistentVolumeClaim.ClaimName`
(`none` models a nil `PersistentVolumeClaim` pointer). -/
structure Volume where
  name : String
  claimName : Option String
deriving Repr, DecidableEq

/-- A pod, reduced to the fields the embedded functions read. -/
structure Pod where
  name : String
  volumes : List Volume
deriving Repr, DecidableEq

/-- A persistent volume, reduced to `spec.accessModes`. -/
structure PV where
  accessModes : List String
deriving Repr, DecidableEq

/-- A persistent volume claim, reduced to name and `status.phase`. -/
structure PVC where
  name : String
  phase : String
deriving Repr, DecidableEq

/-! ## mount.go (newest revision): cluster probe -/

/-- Embeds `containsAccessMode` (mount.go): membership test on the slice. -/
def containsAccessMode (modes : List String) (mode : String) : Bool :=
  modes.any (fun m => m == mode)

/-- Does this pod reference the PVC? Inner loop of `findPodUsingPVC`:
`volume.PersistentVolumeClaim != nil && volume.PersistentVolumeClaim.ClaimName == pvcName`. -/
def podUsesPVC (pod : Pod) (pvcName : String) : Bool :=
  pod.volumes.any (fun v => v.claimName == some pvcName)

/-- Embeds `findPodUsingPVC` (mount.go): name of the first pod in list order
whose volumes reference the PVC, or the empty string. -/
def findPodUsingPVC : List Pod → String → String
  | [], _ => ""
  | pod :: rest, pvcName =>
    if podUsesPVC pod pvcName then pod.name else findPodUsingPVC rest pvcName

/-- Embeds `checkPVAccessMode` (mount.go, newest revision).  The two API
calls (`PersistentVolumes().Get` and `Pods(namespace).List`) are modelled by
`Except` inputs.  Mirrors Go's three return values `(bool, string, error)`. -/
def checkPVAccessMode (getPV : Except String PV) (listPods : Except String (List Pod))
    (pvcName : String) : Bool × String × Option String :=
  match getPV with
  | .error e => (true, "", some ("failed to get PV: " ++ e))
  | .ok pv =>
    if !containsAccessMode pv.accessModes ReadWriteOnce then
      (true, "", none)
    else
      match listPods with
      | .error e => (true, "", some ("failed to list pods: " ++ e))
      | .ok pods =>
        let podName := findPodUsingPVC pods pvcName
        if podName != "" then (false, podName, none)
        else (true, "", none)

/-- Embeds `checkPVCUsage` (mount.go, newest revision): fetch the PVC and
require `status.phase == Bound`. -/
def checkPVCUsage (getPVC : Except String PVC) (pvcName : String) : Except String PVC :=
  match getPVC with
  | .error e => .error ("failed to get PVC: " ++ e)
  | .ok pvc =>
    if pvc.phase != ClaimBound then .error ("PVC " ++ pvcName ++ " is not bound")
    else .ok pvc

/-! ## utils.go: name validation -/

/-- One character of the class `[a-z0-9]` (ASCII codes 97..122 and 48..57). -/
def isNameChar (c : Char) : Bool :=
  (97 ≤ c.toNat && c.toNat ≤ 122) || (48 ≤ c.toNat && c.toNat ≤ 57)

/-- One character of the class `[-a-z0-9.]` (codes 45 and 46 are the hyphen
and the dot). -/
def isNameMidChar (c : Char) : Bool :=
  isNameChar c || c.toNat == 45 || c.toNat == 46

/-- Matcher for `([-a-z0-9.]*[a-z0-9])?` applied to the characters after the
first one: empty, or middle characters followed by a final `[a-z0-9]`. -/
def nameTail : List Char → Bool
  | [] => true
  | [c] => isNameChar c
  | c :: rest => isNameMidChar c && nameTail rest

/-- Embeds `kubernetesNameRegex` (utils.go):
the anchored regex `[a-z0-9]([-a-z0-9.]*[a-z0-9])?` on the whole string. -/
def kubernetesNameRegexMatch (s : String) : Bool :=
  match s.toList with
  | [] => false
  | c :: rest => isNameChar c && nameTail rest

/-- Embeds `ValidateKubernetesName` (utils.go, newest revision). -/
def ValidateKubernetesName (name fieldName : String) : Except String Unit :=
  if name = "" then .error (fieldName ++ " cannot be empty")
  else if name.length > 253 then
    .error (fieldName ++ " must be no more than 253 characters")
  else if !kubernetesNameRegexMatch name then
    .error (fieldName ++ " must consist of lower case alphanumeric characters, hyphen or dot, and must start and end with an alphanumeric character")
  else .ok ()

/-! ## utils.go / mount.go / ssh_mount.go / nfs_pod_setup.go: name and port generation -/

/-- The letter table of `randSeq` (utils.go, newest revision). -/
def randSeqLetters : List Char := "abcdefghijklmnopqrstuvwxyz0123456789".toList

/-- Embeds `randSeq` (utils.go, newest revision).  Both `crand.Int(36)` and
the fallback `rand.IntN(36)` produce an index in `[0, 36)`; the randomness
source is modelled as an explicit function `r`, reduced mod 36. -/
def randSeq (r : Nat → Nat) (n : Nat) : String :=
  ⟨(List.range n).map (fun i => randSeqLetters.getD (r i % 36) 'a')⟩

/-- `MinEphemeralPort` (mount.go). -/
def MinEphemeralPort : Nat := 1024

/-- `MaxEphemeralPort` (mount.go). -/
def MaxEphemeralPort : Nat := 65535

/-- `EphemeralPortRange = MaxEphemeralPort - MinEphemeralPort + 1` (mount.go). -/
def EphemeralPortRange : Nat := MaxEphemeralPort - MinEphemeralPort + 1

/-- Embeds `generatePodNameAndPort` (mount.go, newest revision).
`crand.Int(EphemeralPortRange)` yields a value in `[0, EphemeralPortRange)`
(modelled as `v % EphemeralPortRange`); on randomness failure the function
falls back to `MinEphemeralPort`. -/
def generatePodNameAndPort (r : Nat → Nat) (portRand : Except Unit Nat) : String × Nat :=
  let podName := "volume-exposer-" ++ randSeq r 5
  match portRand with
  | .error _ => (podName, MinEphemeralPort)
  | .ok v => (podName, v % EphemeralPortRange + MinEphemeralPort)

/-- The SSH ephemeral container name (ssh_mount.go, newest revision):
`fmt.Sprintf("volume-exposer-ephemeral-%s", randSeq(5))`. -/
def sshEphemeralContainerName (r : Nat → Nat) : String :=
  "volume-exposer-ephemeral-" ++ randSeq r 5

/-- The NFS ephemeral container name (nfs_pod_setup.go,
`createNFSEphemeralContainer`): `fmt.Sprintf("volume-exposer-%s", randSeq(5))`. -/
def nfsEphemeralContainerName (r : Nat → Nat) : String :=
  "volume-exposer-" ++ randSeq r 5

/-- The name pattern searched for by `killNFSProcessInEphemeralContainer`
(the NFS clean path): it only recognises ephemeral containers whose name
starts with this string. -/
def nfsCleanerNameStart : String := "nfs-ganesha-ephemeral-"

/-! Spec-side regex matchers for the claimed name shapes.  These transcribe
the regular expressions of the specification, to be compared with the
source-side name generators above. -/

/-- Strip a literal pattern from the head of a character list: `some rest`
when the list is the pattern followed by `rest`, else `none`. -/
def charsMatchStart : List Char → List Char → Option (List Char)
  | [], rest => some rest
  | _ :: _, [] => none
  | p :: ps, c :: cs => if c = p then charsMatchStart ps cs else none

/-- The `[a-z0-9]{5}` part of the claimed name regexes. -/
def suffix5 (l : List Char) : Bool := l.length == 5 && l.all isNameChar

/-- Spec-side matcher for `^volume-exposer(-proxy|-ephemeral)?-[a-z0-9]{5}$`. -/
def matchesExposerPodNameRegex (s : String) : Bool :=
  (match charsMatchStart "volume-exposer-".toList s.toList with
   | some t => suffix5 t
   | none => false) ||
  (match charsMatchStart "volume-exposer-proxy-".toList s.toList with
   | some t => suffix5 t
   | none => false) ||
  (match charsMatchStart "volume-exposer-ephemeral-".toList s.toList with
   | some t => suffix5 t
   | none => false)

/-- Spec-side matcher for `^nfs-ganesha-ephemeral-[a-z0-9]{5}$`. -/
def matchesNFSEphemeralNameRegex (s : String) : Bool :=
  match charsMatchStart "nfs-ganesha-ephemeral-".toList s.toList with
  | some t => suffix5 t
  | none => false

/-- Is an `Except` result an error? (Go: `err != nil`.) -/
def isErr {α : Type} : Except String α → Bool
  | .error _ => true
  | .ok _ => false

/-- Error message of an `Except` result (empty when there is none). -/
def errMsgOf {α : Type} : Except String α → String
  | .error e => e
  | .ok _ => ""

/-- `strings.HasPrefix pat s`, via the character-list matcher. -/
def strStartsWithPat (pat s : String) : Bool :=
  (charsMatchStart pat.toList s.toList).isSome

/-- Embeds the ephemeral-container search of
`killNFSProcessInEphemeralContainer`: the Go loop keeps the last container
whose name starts with `nfs-ganesha-ephemeral-`, starting from `""`. -/
def findNFSEphemeralContainerName (ecNames : List String) : String :=
  ecNames.foldl (fun acc n => if strStartsWithPat nfsCleanerNameStart n then n else acc) ""

/-! ## clean path (`cleanRWO`, `cleanNFSRWO`) -/

/-- Result of `cmd.Run()` for a subprocess that exited with `code`:
Go returns a non-nil `*exec.ExitError` exactly when the exit code is
non-zero.  `pkill` exits 0 when at least one process matched and 1 when no
process matched. -/
def runExitCode (code : Nat) : Except String Unit :=
  if code = 0 then .ok () else .error ("exit status " ++ toString code)

/-- Embeds `cleanRWO` (SSH variant): list pods, locate the workload pod via
`findPodUsingPVC`, `pkill -f "kubectl port-forward pod/<name>"` (exit code
`pkillExit`), then kill the server process in the ephemeral container
(result `killServer`). -/
def cleanRWO (listPods : Except String (List Pod)) (pkillExit : Nat)
    (killServer : Except String Unit) (pvcName : String) : Except String Unit :=
  match listPods with
  | .error e => .error ("failed to list pods: " ++ e)
  | .ok pods =>
    let podName := findPodUsingPVC pods pvcName
    if podName = "" then .error ("no pod found using PVC " ++ pvcName)
    else
      match runExitCode pkillExit with
      | .error e => .error ("failed to kill port-forward process: " ++ e)
      | .ok _ =>
        match killServer with
        | .error e => .error ("failed to kill process in ephemeral container: " ++ e)
        | .ok _ => .ok ()

/-- Embeds `cleanNFSRWO`: identical control flow with the NFS server-kill
step (`pkill ganesha.nfsd` via `kubectl exec`). -/
def cleanNFSRWO (listPods : Except String (List Pod)) (pkillExit : Nat)
    (killServer : Except String Unit) (pvcName : String) : Except String Unit :=
  match listPods with
  | .error e => .error ("failed to list pods: " ++ e)
  | .ok pods =>
    let podName := findPodUsingPVC pods pvcName
    if podName = "" then .error ("no pod found using PVC " ++ pvcName)
    else
      match runExitCode pkillExit with
      | .error e => .error ("failed to kill port-forward process: " ++ e)
      | .ok _ =>
        match killServer with
        | .error e => .error ("failed to kill NFS process in ephemeral container: " ++ e)
        | .ok _ => .ok ()

/-! ## nfs_mount.go (newest revision): readiness probe and mount retries -/

/-- Outcome of the one-byte read of the NFS probe. -/
inductive NFSReadOutcome where
  /-- the 500 ms read deadline expired -/
  | timedOut
  /-- the read failed with a non-timeout error (connection closed) -/
  | closedErr
  /-- the read returned data cleanly -/
  | gotByte
deriving Repr, DecidableEq

/-- A successfully dialled probe connection. -/
structure NFSProbeConn where
  setDeadlineOk : Bool
  read : NFSReadOutcome
deriving Repr, DecidableEq

/-- The probe target address `fmt.Sprintf("127.0.0.1:%d", port)`. -/
def nfsProbeAddr (port : Nat) : String := "127.0.0.1:" ++ toString port

/-- The read deadline of the NFS probe, in milliseconds (source: 500 ms). -/
def nfsReadDeadlineMillis : Nat := 500

/-- The NFS probe read buffer size (source: `make([]byte, 1)`). -/
def nfsReadBufferBytes : Nat := 1

/-- Embeds `isNFSReady` (newest revision): dial, arm the 500 ms read
deadline, read one byte; timeout and clean read mean ready, dial failure
(`none`) and non-timeout read error mean not ready. -/
def isNFSReady (conn : Option NFSProbeConn) : Bool :=
  match conn with
  | none => false
  | some c =>
    if !c.setDeadlineOk then false
    else
      match c.read with
      | .timedOut => true
      | .closedErr => false
      | .gotByte => true

/-- Events of the NFS local-mount retry loop. -/
inductive NFSMountEv where
  /-- `time.Sleep(3 * time.Second)` between attempts -/
  | sleep3s
  /-- the i-th run of the platform mount command -/
  | mountAttempt (i : Nat)
deriving Repr, DecidableEq

/-- `maxRetries` of `mountPVCOverNFS` (newest revision). -/
def nfsMaxRetries : Nat := 5

/-- Seconds slept between NFS mount attempts. -/
def nfsRetrySleepSeconds : Nat := 3

/-- The retry loop of `mountPVCOverNFS`: `attempt` is the loop counter,
`remaining` the attempts left, `lastErr` the last subprocess error.
`runRes i` is the exit result of the i-th mount subprocess. -/
def mountNFSLoop (runRes : Nat → Except String Unit) :
    Nat → Nat → Option String → Except String Unit × List NFSMountEv
  | _, 0, lastErr =>
    (.error ("failed to mount PVC using NFS: " ++ lastErr.getD ""), [])
  | attempt, remaining + 1, _ =>
    let pre : List NFSMountEv := if attempt > 0 then [.sleep3s] else []
    match runRes attempt with
    | .error e =>
      let next := mountNFSLoop runRes (attempt + 1) remaining (some e)
      (next.1, pre ++ .mountAttempt attempt :: next.2)
    | .ok _ => (.ok (), pre ++ [.mountAttempt attempt])

/-- Embeds `mountPVCOverNFS` (newest revision): up to `nfsMaxRetries`
attempts, 3-second sleeps before every attempt but the first, success on
the first attempt that exits 0, last error otherwise. -/
def mountPVCOverNFS (runRes : Nat → Except String Unit) :
    Except String Unit × List NFSMountEv :=
  mountNFSLoop runRes 0 nfsMaxRetries none

/-- The event trace of an NFS mount whose first success is attempt `i`:
attempt 0, then a 3-second sleep before each further attempt. -/
def nfsSuccessTrace : Nat → List NFSMountEv
  | 0 => [.mountAttempt 0]
  | i + 1 => nfsSuccessTrace i ++ [.sleep3s, .mountAttempt (i + 1)]

/-! ## Port-forward lifecycle with effect traces (ssh_mount.go, nfs_mount.go, mount.go) -/

/-- Mutating effects of the mount path, in execution order. -/
inductive Eff where
  /-- `Pods(namespace).Create` of the exposer pod -/
  | createPod
  /-- strategic-merge patch of the `ephemeralcontainers` subresource -/
  | patchEphemeral
  /-- start of the `kubectl port-forward` child process -/
  | startPF
  /-- `cmd.Process.Kill()` of the port-forward child -/
  | killPF
  /-- run of the local `sshfs` subprocess -/
  | runSSHFS
  /-- run of the local NFS `mount` subprocess (with retries) -/
  | runNFSMount
deriving Repr, DecidableEq

/-- Embeds `setupPortForwarding` (ssh_mount.go): start the child, then probe
with `waitForSSHReady`; on probe failure kill the child and fail. -/
def setupPortForwarding (startOk readyOk : Bool) : Except String Unit × List Eff :=
  if startOk = false then (.error "failed to start port-forward", [])
  else if readyOk then (.ok (), [.startPF])
  else (.error "failed to establish SSH connection", [.startPF, .killPF])

/-- Embeds `setupPortForwardAndMount` (mount.go, newest revision): on
`mountPVCOverSSH` failure kill the port-forward child. -/
def setupPortForwardAndMount (startOk readyOk sshfsOk : Bool) :
    Except String Unit × List Eff :=
  match setupPortForwarding startOk readyOk with
  | (.error e, tr) => (.error e, tr)
  | (.ok _, tr) =>
    if sshfsOk then (.ok (), tr ++ [.runSSHFS])
    else (.error "failed to mount PVC using SSHFS", tr ++ [.runSSHFS, .killPF])

/-- Embeds `setupNFSPortForwarding` (nfs_mount.go): same shape with the NFS
readiness probe. -/
def setupNFSPortForwarding (startOk readyOk : Bool) : Except String Unit × List Eff :=
  if startOk = false then (.error "failed to start port-forward", [])
  else if readyOk then (.ok (), [.startPF])
  else (.error "failed to establish NFS connection", [.startPF, .killPF])

/-- Embeds `setupNFSPortForwardAndMount` (nfs_mount.go): on
`mountPVCOverNFS` failure kill the port-forward child. -/
def setupNFSPortForwardAndMount (startOk readyOk mountOk : Bool) :
    Except String Unit × List Eff :=
  match setupNFSPortForwarding startOk readyOk with
  | (.error e, tr) => (.error e, tr)
  | (.ok _, tr) =>
    if mountOk then (.ok (), tr ++ [.runNFSMount])
    else (.error "failed to mount PVC using NFS", tr ++ [.runNFSMount, .killPF])

/-! ## ssh_mount.go: temporary SSH key file lifecycle -/

/-- The `os.CreateTemp` template used for the key file. -/
def tempKeyFileTemplate : String := "ssh_key_*.pem"

/-- File-system and registry operations performed on the temp key file. -/
inductive KOp where
  /-- `os.CreateTemp("", "ssh_key_*.pem")` -/
  | createTemp
  /-- `registerTempKeyFile(path)` -/
  | register
  /-- `os.Chmod(path, 0600)` -/
  | chmod600
  /-- `tmpFile.Write([]byte(privateKey))` -/
  | writeKey
  /-- `tmpFile.Close()` -/
  | closeFile
  /-- `sshfsCmd.Run()` -/
  | runSSHFS
  /-- `os.Remove(path)` -/
  | removeFile
  /-- `unregisterTempKeyFile(path)` -/
  | unregister
deriving Repr, DecidableEq

/-- Observable state of the temp key file and the temp-file registry. -/
structure KeyFileSt where
  onDisk : Bool
  mode : Nat
  hasKeyBytes : Bool
  registered : Bool
deriving Repr, DecidableEq

/-- State before `createTempSSHKeyFile` runs. -/
def kfInit : KeyFileSt := ⟨false, 0, false, false⟩

/-- Effect of one operation.  `os.CreateTemp` creates the file with mode
0600; a failed operation performs no transition and does not appear in the
operation list. -/
def applyKOp (s : KeyFileSt) : KOp → KeyFileSt
  | .createTemp => { s with onDisk := true, mode := 0o600 }
  | .register => { s with registered := true }
  | .chmod600 => { s with mode := 0o600 }
  | .writeKey => { s with hasKeyBytes := true }
  | .closeFile => s
  | .runSSHFS => s
  | .removeFile => { s with onDisk := false, hasKeyBytes := false }
  | .unregister => { s with registered := false }

/-- All states reached while performing `ops` from `s` (including `s`). -/
def kStatesFrom (s : KeyFileSt) : List KOp → List KeyFileSt
  | [] => [s]
  | op :: rest => s :: kStatesFrom (applyKOp s op) rest

/-- Embeds the temp-key-file behaviour of `mountPVCOverSSH` together with
`createTempSSHKeyFile` (ssh_mount.go, newest revision): the successful
operations performed, in order, and the function result, for each
combination of step outcomes.  Failures of chmod/write/close run the
`cleanup` closure (remove + unregister); once `createTempSSHKeyFile`
succeeds, the deferred `cleanup` runs after `sshfsCmd.Run()` returns,
whether or not sshfs succeeded. -/
def mountSSHKeyOps (createOk chmodOk writeOk closeOk sshfsOk : Bool) :
    List KOp × Except String Unit :=
  if createOk = false then
    ([], .error "failed to create temporary file for SSH private key")
  else if chmodOk = false then
    ([.createTemp, .register, .removeFile, .unregister],
     .error "failed to set permissions on temporary SSH key file")
  else if writeOk = false then
    ([.createTemp, .register, .chmod600, .removeFile, .unregister],
     .error "failed to write SSH private key to temporary file")
  else if closeOk = false then
    ([.createTemp, .register, .chmod600, .writeKey, .removeFile, .unregister],
     .error "failed to close temporary file")
  else if sshfsOk then
    ([.createTemp, .register, .chmod600, .writeKey, .closeFile, .runSSHFS,
      .removeFile, .unregister], .ok ())
  else
    ([.createTemp, .register, .chmod600, .writeKey, .closeFile, .runSSHFS,
      .removeFile, .unregister], .error "failed to mount PVC using SSHFS")

/-! ## ssh_mount.go: SSH readiness probe -/

/-- Result of `conn.Read(buf)` on the 4-byte buffer.  Per the Go `io.Reader`
contract a read may return `n > 0` bytes together with a non-nil error
(for example `io.EOF` when the peer closes after sending). -/
structure SSHReadResult where
  n : Nat
  buf : List Char
  err : Option String
deriving Repr, DecidableEq

/-- A successfully dialled SSH probe connection. -/
structure SSHProbeConn where
  setDeadlineOk : Bool
  read : SSHReadResult
deriving Repr, DecidableEq

/-- The probe target address `fmt.Sprintf("127.0.0.1:%d", port)`. -/
def sshProbeAddr (port : Nat) : String := "127.0.0.1:" ++ toString port

/-- The SSH probe read deadline, in seconds (source: 2 s). -/
def sshReadDeadlineSeconds : Nat := 2

/-- The SSH probe read buffer size (source: `make([]byte, 4)`). -/
def sshReadBufferBytes : Nat := 4

/-- Embeds `isSSHReady` (ssh_mount.go, newest revision):
`return err == nil && n >= 3 && string(buf[:3]) == "SSH"`. -/
def isSSHReady (conn : Option SSHProbeConn) : Bool :=
  match conn with
  | none => false
  | some c =>
    if !c.setDeadlineOk then false
    else (c.read.err == none) && decide (3 ≤ c.read.n)
      && (c.read.buf.take 3 == "SSH".toList)

/-! ## mount.go: the Mount orchestrator -/

/-- Embeds `validateMountPoint`: `os.Stat` existence check. -/
def validateMountPoint (present : Bool) (localMountPoint : String) : Except String Unit :=
  if present then .ok ()
  else .error ("local mount point " ++ localMountPoint ++ " does not exist")

/-- Embeds `getPVCVolumeName`: first volume with a non-nil
`PersistentVolumeClaim` whose `ClaimName` is non-empty. -/
def getPVCVolumeName : List Volume → Except String String
  | [] => .error "failed to find volume name in the existing pod"
  | v :: rest =>
    match v.claimName with
    | some cn => if cn != "" then .ok v.name else getPVCVolumeName rest
    | none => getPVCVolumeName rest

/-- Result of a `Mount` invocation: `checkSSHFS` calls `os.Exit(1)` when
sshfs is unavailable, otherwise `Mount` returns an `error`. -/
inductive MountOutcome where
  | exited
  | ret (r : Except String Unit)
deriving Repr

/-- The environment of one `Mount` invocation: outcomes of all API calls,
subprocesses and randomness the orchestration consumes. -/
structure MountEnv where
  sshfsPresent : Bool
  mountPointExists : Bool
  buildClient : Except String Unit
  getPVC : Except String PVC
  getPV : Except String PV
  listPods : Except String (List Pod)
  keygen : Except String Unit
  createPodRes : Except String Unit
  podReady : Except String Unit
  getWorkloadPod : Except String Pod
  patchRes : Except String Unit
  ephemeralReady : Except String Unit
  pfStartOk : Bool
  readyProbeOk : Bool
  localMountOk : Bool

/-- Embeds `createEphemeralContainer` (ssh_mount.go, newest revision): get
the workload pod, locate the PVC volume, then patch the
`ephemeralcontainers` subresource (the patch attempt is the mutating
effect). -/
def createEphemeralContainerE (getPod : Except String Pod)
    (patchRes : Except String Unit) : Except String Unit × List Eff :=
  match getPod with
  | .error e => (.error ("failed to get existing pod: " ++ e), [])
  | .ok pod =>
    match getPVCVolumeName pod.volumes with
    | .error e => (.error e, [])
    | .ok _ =>
      match patchRes with
      | .error e => (.error ("failed to patch pod with ephemeral container: " ++ e), [.patchEphemeral])
      | .ok _ => (.ok (), [.patchEphemeral])

/-- Embeds `handleRWX` (mount_rwx.go): keygen, create pod and wait ready,
then port-forward and sshfs. -/
def handleRWX (env : MountEnv) : Except String Unit × List Eff :=
  match env.keygen with
  | .error e => (.error ("error generating key pair: " ++ e), [])
  | .ok _ =>
    match env.createPodRes with
    | .error e => (.error ("failed to create pod: " ++ e), [.createPod])
    | .ok _ =>
      match env.podReady with
      | .error e => (.error e, [.createPod])
      | .ok _ =>
        let pm := setupPortForwardAndMount env.pfStartOk env.readyProbeOk env.localMountOk
        (pm.1, .createPod :: pm.2)

/-- Embeds `handleRWO` (newest revision): keygen, inject the ephemeral
container into the workload pod, wait for it, then port-forward directly to
the workload pod and sshfs. -/
def handleRWO (env : MountEnv) : Except String Unit × List Eff :=
  match env.keygen with
  | .error e => (.error ("error generating key pair: " ++ e), [])
  | .ok _ =>
    let ec := createEphemeralContainerE env.getWorkloadPod env.patchRes
    match ec.1 with
    | .error e => (.error e, ec.2)
    | .ok _ =>
      match env.ephemeralReady with
      | .error e => (.error e, ec.2)
      | .ok _ =>
        let pm := setupPortForwardAndMount env.pfStartOk env.readyProbeOk env.localMountOk
        (pm.1, ec.2 ++ pm.2)

/-- Embeds `Mount` (mount.go, newest revision): `checkSSHFS`, DNS-1123
validation of namespace and pvc name, mount-point check, client build, PVC
fetch + bound check, PV access-mode probe, then strategy dispatch. -/
def Mount (env : MountEnv) (ns pvcName localMountPoint : String) :
    MountOutcome × List Eff :=
  if env.sshfsPresent = false then (.exited, [])
  else
    match ValidateKubernetesName ns "namespace" with
    | .error e => (.ret (.error e), [])
    | .ok _ =>
    match ValidateKubernetesName pvcName "pvc-name" with
    | .error e => (.ret (.error e), [])
    | .ok _ =>
    match validateMountPoint env.mountPointExists localMountPoint with
    | .error e => (.ret (.error e), [])
    | .ok _ =>
    match env.buildClient with
    | .error e => (.ret (.error e), [])
    | .ok _ =>
    match checkPVCUsage env.getPVC pvcName with
    | .error e => (.ret (.error e), [])
    | .ok pvc =>
      match checkPVAccessMode env.getPV env.listPods pvc.name with
      | (_, _, some e) => (.ret (.error e), [])
      | (canBeMounted, _, none) =>
        if canBeMounted then
          let h := handleRWX env
          (.ret h.1, h.2)
        else
          let h := handleRWO env
          (.ret h.1, h.2)

/-! ## Helper lemmas -/

/-- `[a-z0-9]` characters are also `[-a-z0-9.]` characters. -/
theorem isNameChar_isMid {c : Char} (h : isNameChar c = true) : isNameMidChar c = true := by
  simp [isNameMidChar, h]

/-- A character outside `[-a-z0-9.]` anywhere makes `nameTail` fail. -/
theorem nameTail_bad {l : List Char} {c : Char} (hc : c ∈ l)
    (hbad : isNameMidChar c = false) : nameTail l = false := by
  induction l with
  | nil => simp at hc
  | cons d rest ih =>
    cases rest with
    | nil =>
      simp only [List.mem_singleton] at hc
      subst hc
      cases hnc : isNameChar c with
      | false => simp [nameTail, hnc]
      | true => exact absurd (isNameChar_isMid hnc) (by simp [hbad])
    | cons e rest2 =>
      rcases List.mem_cons.mp hc with h1 | h2
      · subst h1
        simp [nameTail, hbad]
      · simp [nameTail, ih h2]

/-- A true `nameTail` forces the last character into `[a-z0-9]`. -/
theorem nameTail_last {l : List Char} {c : Char} (h : nameTail l = true)
    (hl : l.getLast? = some c) : isNameChar c = true := by
  induction l with
  | nil => simp at hl
  | cons d rest ih =>
    cases rest with
    | nil =>
      simp only [List.getLast?_singleton, Option.some.injEq] at hl
      subst hl
      simpa [nameTail] using h
    | cons e rest2 =>
      rw [List.getLast?_cons_cons] at hl
      simp only [nameTail, Bool.and_eq_true] at h
      exact ih h.2 hl

/-- The regex match fails whenever some character lies outside `[-a-z0-9.]`. -/
theorem regexMatch_bad_char {name : String} {c : Char} (hc : c ∈ name.toList)
    (hbad : isNameMidChar c = false) : kubernetesNameRegexMatch name = false := by
  unfold kubernetesNameRegexMatch
  cases hl : name.toList with
  | nil => rfl
  | cons d rest =>
    rw [hl] at hc
    rcases List.mem_cons.mp hc with h1 | h2
    · subst h1
      cases hnc : isNameChar c with
      | false => simp [hnc]
      | true => exact absurd (isNameChar_isMid hnc) (by simp [hbad])
    · simp [nameTail_bad h2 hbad]

/-- Evaluating `ValidateKubernetesName` when the regex fails: the result is
an error. -/
theorem validate_err_of_regex {name fieldName : String}
    (h : kubernetesNameRegexMatch name = false) :
    isErr (ValidateKubernetesName name fieldName) = true := by
  unfold ValidateKubernetesName
  by_cases h0 : name = ""
  · simp [h0, isErr]
  · by_cases h1 : name.length > 253
    · simp [h0, h1, isErr]
    · simp [h0, h1, h, isErr]

/-- `findPodUsingPVC` returns the name of the first matching pod, in list
order, as computed by `List.find?`. -/
theorem findPodUsingPVC_eq (pods : List Pod) (pvcName : String) :
    findPodUsingPVC pods pvcName =
      match pods.find? (fun p => podUsesPVC p pvcName) with
      | some p => p.name
      | none => "" := by
  induction pods with
  | nil => rfl
  | cons p rest ih =>
    cases h : podUsesPVC p pvcName with
    | true => simp [findPodUsingPVC, List.find?_cons, h]
    | false => simp [findPodUsingPVC, List.find?_cons, h, ih]

/-- `String.toList` distributes over append. -/
theorem str_toList_append (s t : String) : (s ++ t).toList = s.toList ++ t.toList := by
  cases s
  cases t
  rfl

/-- Stripping a pattern from itself followed by anything leaves the rest. -/
theorem charsMatchStart_self (p rest : List Char) :
    charsMatchStart p (p ++ rest) = some rest := by
  induction p with
  | nil => rfl
  | cons c cs ih => simp [charsMatchStart, ih]

/-- A head mismatch makes the pattern match fail. -/
theorem charsMatchStart_ne_head {x y : Char} (ps cs : List Char) (h : x ≠ y) :
    charsMatchStart (y :: ps) (x :: cs) = none := by
  simp [charsMatchStart, h]

/-- The character list underlying `randSeq`. -/
theorem randSeq_data (r : Nat → Nat) (n : Nat) :
    (randSeq r n).data
      = (List.range n).map (fun i => randSeqLetters.getD (r i % 36) 'a') := rfl

/-- Every entry of the letter table is in `[a-z0-9]`. -/
theorem randSeqLetters_name_char :
    ∀ j, j < 36 → isNameChar (randSeqLetters.getD j 'a') = true := by decide

/-- A five-character `randSeq` suffix satisfies `[a-z0-9]{5}`. -/
theorem suffix5_randSeq (r : Nat → Nat) : suffix5 (randSeq r 5).data = true := by
  rw [randSeq_data]
  simp only [suffix5, List.length_map, List.length_range, List.all_eq_true,
    Bool.and_eq_true, beq_iff_eq]
  refine ⟨by simp, ?_⟩
  intro x hx
  rcases List.mem_map.mp hx with ⟨i, _, hxi⟩
  subst hxi
  exact randSeqLetters_name_char _ (Nat.mod_lt _ (by norm_num))

/-- Names of the form `volume-exposer-<5-char randSeq>` match the claimed
pod-name regex. -/
theorem exposer_name_matches (r : Nat → Nat) :
    matchesExposerPodNameRegex ("volume-exposer-" ++ randSeq r 5) = true := by
  unfold matchesExposerPodNameRegex
  rw [str_toList_append, charsMatchStart_self]
  simp [suffix5_randSeq]

/-- SSH ephemeral container names match the claimed pod-name regex via the
`-ephemeral` alternative. -/
theorem ssh_ephemeral_name_matches (r : Nat → Nat) :
    matchesExposerPodNameRegex (sshEphemeralContainerName r) = true := by
  unfold matchesExposerPodNameRegex sshEphemeralContainerName
  rw [str_toList_append, charsMatchStart_self]
  simp [suffix5_randSeq]

/-- The generated NFS ephemeral container name starts with `v`, so neither
the claimed regex `^nfs-ganesha-ephemeral-[a-z0-9]{5}$` nor the clean
path's prefix search can match it. -/
theorem nfs_ephemeral_name_mismatch (r : Nat → Nat) :
    matchesNFSEphemeralNameRegex (nfsEphemeralContainerName r) = false ∧
    strStartsWithPat nfsCleanerNameStart (nfsEphemeralContainerName r) = false := by
  have hlist : (nfsEphemeralContainerName r).toList
      = 'v' :: ("olume-exposer-".toList ++ (randSeq r 5).toList) := by
    unfold nfsEphemeralContainerName
    rw [str_toList_append,
      show "volume-exposer-".toList = 'v' :: "olume-exposer-".toList from rfl,
      List.cons_append]
  have hpat : nfsCleanerNameStart.toList
      = 'n' :: "fs-ganesha-ephemeral-".toList := rfl
  have hnone : charsMatchStart nfsCleanerNameStart.toList
      (nfsEphemeralContainerName r).toList = none := by
    rw [hlist, hpat]
    exact charsMatchStart_ne_head _ _ (by decide)
  constructor
  · unfold matchesNFSEphemeralNameRegex
    rw [show "nfs-ganesha-ephemeral-".toList = nfsCleanerNameStart.toList from rfl,
      hnone]
  · unfold strStartsWithPat
    rw [hnone]
    rfl

/-- The name part of `generatePodNameAndPort` is independent of the port
randomness. -/
theorem generatePodName_fst (r : Nat → Nat) (portRand : Except Unit Nat) :
    (generatePodNameAndPort r portRand).1 = "volume-exposer-" ++ randSeq r 5 := by
  cases portRand <;> rfl

/-! ## Claim C2 -/

/-- C2, evaluated against the code: generated exposer pod names and SSH
ephemeral container names match
`^volume-exposer(-proxy|-ephemeral)?-[a-z0-9]{5}$` and generated local
ports lie in `[1024, 65535]`, but every name generated by
`createNFSEphemeralContainer` is `volume-exposer-<suffix>`: it never
matches the claimed `^nfs-ganesha-ephemeral-[a-z0-9]{5}$`, and the
repository's own NFS clean path (`findNFSEphemeralContainerName`, which
searches for the `nfs-ganesha-ephemeral-` pattern) can never find it.  The
failing input `r i = i` produces the concrete name
`volume-exposer-abcde`. -/
theorem generatedNames_spec :
    (∀ (r : Nat → Nat) (portRand : Except Unit Nat),
      matchesExposerPodNameRegex (generatePodNameAndPort r portRand).1 = true) ∧
    (∀ r : Nat → Nat, matchesExposerPodNameRegex (sshEphemeralContainerName r) = true) ∧
    (∀ (r : Nat → Nat) (portRand : Except Unit Nat),
      MinEphemeralPort ≤ (generatePodNameAndPort r portRand).2 ∧
      (generatePodNameAndPort r portRand).2 ≤ MaxEphemeralPort) ∧
    (∀ r : Nat → Nat, matchesNFSEphemeralNameRegex (nfsEphemeralContainerName r) = false) ∧
    (∀ r : Nat → Nat, strStartsWithPat nfsCleanerNameStart (nfsEphemeralContainerName r) = false) ∧
    nfsEphemeralContainerName (fun i => i) = "volume-exposer-abcde" ∧
    matchesNFSEphemeralNameRegex "volume-exposer-abcde" = false ∧
    findNFSEphemeralContainerName [nfsEphemeralContainerName (fun i => i)] = "" := by
  refine ⟨?_, ssh_ephemeral_name_matches, ?_, fun r => (nfs_ephemeral_name_mismatch r).1,
    fun r => (nfs_ephemeral_name_mismatch r).2, by decide, by decide, by decide⟩
  · intro r portRand
    rw [generatePodName_fst]
    exact exposer_name_matches r
  · intro r portRand
    cases portRand with
    | error _ =>
      simp [generatePodNameAndPort, MinEphemeralPort, MaxEphemeralPort]
    | ok v =>
      have h : v % EphemeralPortRange < EphemeralPortRange :=
        Nat.mod_lt _ (by decide)
      simp only [generatePodNameAndPort, MinEphemeralPort, MaxEphemeralPort,
        EphemeralPortRange] at h ⊢
      omega

/-! ## Claim C3 -/

/-- C3 counterexample: a second `clean` after a successful clean.  The
workload pod `worker-7` still references `pvc-3`, but the port-forward was
already killed, so `pkill` matches no process and exits 1.  Both `cleanRWO`
and `cleanNFSRWO` then fail with `failed to kill port-forward process`,
although the claim says a pkill non-match must not fail the command. -/
theorem cleanRWO_pkill_nomatch_fails :
    cleanRWO (.ok [⟨"worker-7", [⟨"data", some "pvc-3"⟩]⟩]) 1 (.ok ()) "pvc-3"
      = .error "failed to kill port-forward process: exit status 1" ∧
    cleanNFSRWO (.ok [⟨"worker-7", [⟨"data", some "pvc-3"⟩]⟩]) 1 (.ok ()) "pvc-3"
      = .error "failed to kill port-forward process: exit status 1" :=
  ⟨rfl, rfl⟩

/-- C3 amended: the RWO clean paths propagate every non-zero `pkill` exit
(including exit 1, "no process matched") as
`failed to kill port-forward process`, and succeed exactly when the
workload pod is found, `pkill` exits 0 and the in-container server kill
succeeds. -/
theorem cleanRWO_spec (pods : List Pod) (pkillExit : Nat)
    (killServer : Except String Unit) (pvcName : String) :
    (pkillExit ≠ 0 → findPodUsingPVC pods pvcName ≠ "" →
      cleanRWO (.ok pods) pkillExit killServer pvcName
        = .error ("failed to kill port-forward process: "
            ++ ("exit status " ++ toString pkillExit)) ∧
      cleanNFSRWO (.ok pods) pkillExit killServer pvcName
        = .error ("failed to kill port-forward process: "
            ++ ("exit status " ++ toString pkillExit))) ∧
    (cleanRWO (.ok pods) pkillExit killServer pvcName = .ok () ↔
      findPodUsingPVC pods pvcName ≠ "" ∧ pkillExit = 0 ∧ killServer = .ok ()) ∧
    (cleanNFSRWO (.ok pods) pkillExit killServer pvcName = .ok () ↔
      findPodUsingPVC pods pvcName ≠ "" ∧ pkillExit = 0 ∧ killServer = .ok ()) := by
  refine ⟨?_, ?_, ?_⟩
  · intro hk hp
    constructor <;> simp [cleanRWO, cleanNFSRWO, hp, runExitCode, hk]
  · unfold cleanRWO
    by_cases hp : findPodUsingPVC pods pvcName = ""
    · simp [hp]
    · by_cases hk : pkillExit = 0
      · cases killServer <;> simp [hp, hk, runExitCode]
      · simp [hp, hk, runExitCode]
  · unfold cleanNFSRWO
    by_cases hp : findPodUsingPVC pods pvcName = ""
    · simp [hp]
    · by_cases hk : pkillExit = 0
      · cases killServer <;> simp [hp, hk, runExitCode]
      · simp [hp, hk, runExitCode]

/-- Witness for the amended C3: the counterexample environment, through the
amended theorem. -/
theorem cleanRWO_spec_witness :
    cleanRWO (.ok [⟨"worker-7", [⟨"data", some "pvc-3"⟩]⟩]) 1 (.ok ()) "pvc-3"
      = .error ("failed to kill port-forward process: "
          ++ ("exit status " ++ toString 1)) :=
  ((cleanRWO_spec [⟨"worker-7", [⟨"data", some "pvc-3"⟩]⟩] 1 (.ok ()) "pvc-3").1
    (by decide) (by decide)).1

/-! ## Claim C8 -/

/-- C8: `ValidateKubernetesName` rejects the empty name, names longer than
253 characters, names containing an ASCII uppercase letter (codes 65..90)
or an underscore, and names whose first or last character is a hyphen or a
dot; it accepts `"a"`, `"my-pvc"` and `"pvc-1.0.0"`. -/
theorem validateKubernetesName_spec :
    (∀ fieldName, ValidateKubernetesName "" fieldName =
      .error (fieldName ++ " cannot be empty")) ∧
    (∀ name fieldName, name.length > 253 →
      isErr (ValidateKubernetesName name fieldName) = true) ∧
    (∀ name fieldName (c : Char), c ∈ name.toList →
      ((65 ≤ c.toNat ∧ c.toNat ≤ 90) ∨ c = '_') →
      isErr (ValidateKubernetesName name fieldName) = true) ∧
    (∀ name fieldName (c : Char),
      (name.toList.head? = some c ∨ name.toList.getLast? = some c) →
      (c = '-' ∨ c = '.') →
      isErr (ValidateKubernetesName name fieldName) = true) ∧
    (∀ fieldName, ValidateKubernetesName "a" fieldName = .ok () ∧
      ValidateKubernetesName "my-pvc" fieldName = .ok () ∧
      ValidateKubernetesName "pvc-1.0.0" fieldName = .ok ()) := by
  refine ⟨fun fieldName => rfl, ?_, ?_, ?_, ?_⟩
  · intro name fieldName h
    unfold ValidateKubernetesName
    have h0 : name ≠ "" := by
      intro he
      rw [he] at h
      simp at h
    simp [h0, h, isErr]
  · intro name fieldName c hc hbad
    apply validate_err_of_regex
    apply regexMatch_bad_char hc
    rcases hbad with h1 | h2
    · simp only [isNameMidChar, isNameChar, Bool.or_eq_false_iff,
        Bool.and_eq_false_iff, decide_eq_false_iff_not, beq_eq_false_iff_ne, ne_eq]
      omega
    · subst h2
      decide
  · intro name fieldName c hc hdash
    have hnc : isNameChar c = false := by
      rcases hdash with h | h <;> subst h <;> decide
    apply validate_err_of_regex
    unfold kubernetesNameRegexMatch
    cases hl : name.toList with
    | nil => rfl
    | cons d rest =>
      rw [hl] at hc
      rcases hc with hhead | hlast
      · simp only [List.head?_cons, Option.some.injEq] at hhead
        subst hhead
        simp [hnc]
      · cases rest with
        | nil =>
          simp only [List.getLast?_singleton, Option.some.injEq] at hlast
          subst hlast
          simp [hnc]
        | cons e rest2 =>
          rw [List.getLast?_cons_cons] at hlast
          cases ht : nameTail (e :: rest2) with
          | false => simp [ht]
          | true => exact absurd (nameTail_last ht hlast) (by simp [hnc])
  · intro fieldName
    refine ⟨?_, ?_, ?_⟩ <;>
      simp [ValidateKubernetesName, kubernetesNameRegexMatch, nameTail,
        isNameChar, isNameMidChar] <;> decide

/-- Witness for C8: the name `"My_pvc"` (uppercase `M` at code 77) is
rejected. -/
theorem validateKubernetesName_spec_witness :
    isErr (ValidateKubernetesName "My_pvc" "pvc-name") = true :=
  validateKubernetesName_spec.2.2.1 "My_pvc" "pvc-name" 'M' (by decide)
    (Or.inl (by decide))

/-! ## Claim C1 -/

/-- C1: for a bound PVC (both API calls succeeding), `checkPVAccessMode`
returns `mountableDirectly = true` with no pod when the PV's access modes
do not include `ReadWriteOnce`; otherwise it scans the pod list and returns
`false` with the name of the first pod (in list order) whose volumes
reference the claim, or `true` with an empty name when no pod does. -/
theorem checkPVAccessMode_spec (pv : PV) (pods : List Pod) (pvcName : String) :
    (containsAccessMode pv.accessModes ReadWriteOnce = false →
      checkPVAccessMode (.ok pv) (.ok pods) pvcName = (true, "", none)) ∧
    (∀ p : Pod, containsAccessMode pv.accessModes ReadWriteOnce = true →
      pods.find? (fun q => podUsesPVC q pvcName) = some p → p.name ≠ "" →
      checkPVAccessMode (.ok pv) (.ok pods) pvcName = (false, p.name, none)) ∧
    (containsAccessMode pv.accessModes ReadWriteOnce = true →
      pods.find? (fun q => podUsesPVC q pvcName) = none →
      checkPVAccessMode (.ok pv) (.ok pods) pvcName = (true, "", none)) := by
  refine ⟨?_, ?_, ?_⟩
  · intro h
    simp [checkPVAccessMode, h]
  · intro p hrwo hfind hname
    simp [checkPVAccessMode, hrwo, findPodUsingPVC_eq, hfind, hname]
  · intro hrwo hfind
    simp [checkPVAccessMode, hrwo, findPodUsingPVC_eq, hfind]

/-- Witness for C1: an RWO PV whose claim `pvc-3` is referenced by the pod
`worker-7`. -/
theorem checkPVAccessMode_spec_witness :
    checkPVAccessMode (.ok ⟨[ReadWriteOnce]⟩)
      (.ok [⟨"worker-7", [⟨"data", some "pvc-3"⟩]⟩]) "pvc-3"
      = (false, "worker-7", none) :=
  (checkPVAccessMode_spec ⟨[ReadWriteOnce]⟩
      [⟨"worker-7", [⟨"data", some "pvc-3"⟩]⟩] "pvc-3").2.1
    ⟨"worker-7", [⟨"data", some "pvc-3"⟩]⟩ (by decide) (by decide) (by decide)

/-! ## Claim C4 -/

/-- C4: the NFS readiness probe targets `127.0.0.1:<port>`, arms a 500 ms
read deadline and attempts a one-byte read; it reports ready on a read
timeout or a clean read, and not ready on a dial failure or a non-timeout
read error. -/
theorem isNFSReady_spec :
    (∀ port : Nat, nfsProbeAddr port = "127.0.0.1:" ++ toString port) ∧
    nfsReadDeadlineMillis = 500 ∧
    nfsReadBufferBytes = 1 ∧
    isNFSReady none = false ∧
    isNFSReady (some ⟨true, .timedOut⟩) = true ∧
    isNFSReady (some ⟨true, .gotByte⟩) = true ∧
    isNFSReady (some ⟨true, .closedErr⟩) = false :=
  ⟨fun _ => rfl, rfl, rfl, rfl, rfl, rfl, rfl⟩

/-! ## Claim C5 -/

/-- C5: the NFS local mount is attempted up to 5 times with 3-second pauses
between attempts; `mountPVCOverNFS` succeeds on the first attempt whose
subprocess exits 0 and otherwise returns the last error after 5 attempts. -/
theorem mountPVCOverNFS_spec (runRes : Nat → Except String Unit) :
    nfsMaxRetries = 5 ∧ nfsRetrySleepSeconds = 3 ∧
    ((∀ i, i < 5 → isErr (runRes i) = true) →
      mountPVCOverNFS runRes
        = (.error ("failed to mount PVC using NFS: " ++ errMsgOf (runRes 4)),
           [.mountAttempt 0, .sleep3s, .mountAttempt 1, .sleep3s, .mountAttempt 2,
            .sleep3s, .mountAttempt 3, .sleep3s, .mountAttempt 4])) ∧
    (∀ i, i < 5 → runRes i = .ok () → (∀ j, j < i → isErr (runRes j) = true) →
      mountPVCOverNFS runRes = (.ok (), nfsSuccessTrace i)) := by
  refine ⟨rfl, rfl, ?_, ?_⟩
  · intro h
    have h0 := h 0 (by norm_num)
    have h1 := h 1 (by norm_num)
    have h2 := h 2 (by norm_num)
    have h3 := h 3 (by norm_num)
    have h4 := h 4 (by norm_num)
    cases e0 : runRes 0 with
    | ok _ => rw [e0] at h0; simp [isErr] at h0
    | error m0 =>
    cases e1 : runRes 1 with
    | ok _ => rw [e1] at h1; simp [isErr] at h1
    | error m1 =>
    cases e2 : runRes 2 with
    | ok _ => rw [e2] at h2; simp [isErr] at h2
    | error m2 =>
    cases e3 : runRes 3 with
    | ok _ => rw [e3] at h3; simp [isErr] at h3
    | error m3 =>
    cases e4 : runRes 4 with
    | ok _ => rw [e4] at h4; simp [isErr] at h4
    | error m4 =>
      simp [mountPVCOverNFS, mountNFSLoop, nfsMaxRetries, e0, e1, e2, e3, e4, errMsgOf]
  · intro i hi hok hjs
    interval_cases i
    · simp [mountPVCOverNFS, mountNFSLoop, nfsMaxRetries, hok, nfsSuccessTrace]
    · have h0 := hjs 0 (by norm_num)
      cases e0 : runRes 0 with
      | ok _ => rw [e0] at h0; simp [isErr] at h0
      | error m0 =>
        simp [mountPVCOverNFS, mountNFSLoop, nfsMaxRetries, e0, hok, nfsSuccessTrace]
    · have h0 := hjs 0 (by norm_num)
      have h1 := hjs 1 (by norm_num)
      cases e0 : runRes 0 with
      | ok _ => rw [e0] at h0; simp [isErr] at h0
      | error m0 =>
      cases e1 : runRes 1 with
      | ok _ => rw [e1] at h1; simp [isErr] at h1
      | error m1 =>
        simp [mountPVCOverNFS, mountNFSLoop, nfsMaxRetries, e0, e1, hok, nfsSuccessTrace]
    · have h0 := hjs 0 (by norm_num)
      have h1 := hjs 1 (by norm_num)
      have h2 := hjs 2 (by norm_num)
      cases e0 : runRes 0 with
      | ok _ => rw [e0] at h0; simp [isErr] at h0
      | error m0 =>
      cases e1 : runRes 1 with
      | ok _ => rw [e1] at h1; simp [isErr] at h1
      | error m1 =>
      cases e2 : runRes 2 with
      | ok _ => rw [e2] at h2; simp [isErr] at h2
      | error m2 =>
        simp [mountPVCOverNFS, mountNFSLoop, nfsMaxRetries, e0, e1, e2, hok,
          nfsSuccessTrace]
    · have h0 := hjs 0 (by norm_num)
      have h1 := hjs 1 (by norm_num)
      have h2 := hjs 2 (by norm_num)
      have h3 := hjs 3 (by norm_num)
      cases e0 : runRes 0 with
      | ok _ => rw [e0] at h0; simp [isErr] at h0
      | error m0 =>
      cases e1 : runRes 1 with
      | ok _ => rw [e1] at h1; simp [isErr] at h1
      | error m1 =>
      cases e2 : runRes 2 with
      | ok _ => rw [e2] at h2; simp [isErr] at h2
      | error m2 =>
      cases e3 : runRes 3 with
      | ok _ => rw [e3] at h3; simp [isErr] at h3
      | error m3 =>
        simp [mountPVCOverNFS, mountNFSLoop, nfsMaxRetries, e0, e1, e2, e3, hok,
          nfsSuccessTrace]

/-- Witness for C5: with every attempt failing with `"boom"`, the mount
returns the last error after five attempts. -/
theorem mountPVCOverNFS_spec_witness :
    mountPVCOverNFS (fun _ => .error "boom")
      = (.error ("failed to mount PVC using NFS: "
          ++ errMsgOf ((fun _ => (.error "boom" : Except String Unit)) 4)),
         [.mountAttempt 0, .sleep3s, .mountAttempt 1, .sleep3s, .mountAttempt 2,
          .sleep3s, .mountAttempt 3, .sleep3s, .mountAttempt 4]) :=
  (mountPVCOverNFS_spec (fun _ => .error "boom")).2.2.1 (fun _ _ => rfl)

/-! ## Claim C6 -/

/-- C6: once the `kubectl port-forward` child has been started, every
failure of the readiness probe or of the local sshfs/mount step kills the
child before the error is returned, on both the SSH and the NFS paths. -/
theorem portForward_killed_on_failure :
    ∀ startOk readyOk mountOk : Bool,
      (Eff.startPF ∈ (setupPortForwardAndMount startOk readyOk mountOk).2 →
        isErr (setupPortForwardAndMount startOk readyOk mountOk).1 = true →
        Eff.killPF ∈ (setupPortForwardAndMount startOk readyOk mountOk).2) ∧
      (Eff.startPF ∈ (setupNFSPortForwardAndMount startOk readyOk mountOk).2 →
        isErr (setupNFSPortForwardAndMount startOk readyOk mountOk).1 = true →
        Eff.killPF ∈ (setupNFSPortForwardAndMount startOk readyOk mountOk).2) := by
  intro s r m
  cases s <;> cases r <;> cases m <;> exact ⟨by decide, by decide⟩

/-- Witness for C6: readiness probe succeeded, sshfs failed — the child is
killed. -/
theorem portForward_killed_on_failure_witness :
    Eff.killPF ∈ (setupPortForwardAndMount true true false).2 :=
  (portForward_killed_on_failure true true false).1 (by decide) (by decide)

/-! ## Claim C7 -/

/-- C7: the temp SSH key file is created from template `ssh_key_*.pem`; in
every reachable state, a file containing key bytes has mode 0600, is
registered and is on disk (creation and registration and the chmod to 0600
all precede the PEM write); and once the sshfs subprocess has run, the
final state has the file removed and unregistered, whether or not sshfs
succeeded. -/
theorem tempKeyFile_spec :
    tempKeyFileTemplate = "ssh_key_*.pem" ∧
    ∀ createOk chmodOk writeOk closeOk sshfsOk : Bool,
      (∀ s ∈ kStatesFrom kfInit
          (mountSSHKeyOps createOk chmodOk writeOk closeOk sshfsOk).1,
        s.hasKeyBytes = true → s.mode = 0o600 ∧ s.registered = true ∧ s.onDisk = true) ∧
      (KOp.writeKey ∈ (mountSSHKeyOps createOk chmodOk writeOk closeOk sshfsOk).1 →
        (mountSSHKeyOps createOk chmodOk writeOk closeOk sshfsOk).1.take 3
          = [.createTemp, .register, .chmod600]) ∧
      (KOp.runSSHFS ∈ (mountSSHKeyOps createOk chmodOk writeOk closeOk sshfsOk).1 →
        (kStatesFrom kfInit
            (mountSSHKeyOps createOk chmodOk writeOk closeOk sshfsOk).1).getLast?
          = some ⟨false, 0o600, false, false⟩) := by
  refine ⟨rfl, ?_⟩
  intro a b c d e
  cases a <;> cases b <;> cases c <;> cases d <;> cases e <;>
    exact ⟨by decide, by decide, by decide⟩

/-- Witness for C7: the run in which every file step succeeds but sshfs
fails still ends with the key file removed and unregistered. -/
theorem tempKeyFile_spec_witness :
    (kStatesFrom kfInit (mountSSHKeyOps true true true true false).1).getLast?
      = some ⟨false, 0o600, false, false⟩ :=
  (tempKeyFile_spec.2 true true true true false).2.2 (by decide)

/-! ## Claim C9 -/

/-- C9 counterexample: a dialled connection whose read yields 3 bytes
`SSH` together with an error (the Go `io.Reader` contract allows `n > 0`
with a non-nil error, e.g. `io.EOF` when the peer closes after the
banner).  The claim's conditions hold — the connection succeeded and the
read yielded at least 3 bytes whose first three are `SSH` — yet
`isSSHReady` reports not ready, because the source additionally requires
`err == nil`. -/
theorem isSSHReady_claim_cex :
    isSSHReady (some ⟨true, ⟨3, ['S', 'S', 'H', 'x'], some "EOF"⟩⟩) = false ∧
    3 ≤ (⟨3, ['S', 'S', 'H', 'x'], some "EOF"⟩ : SSHReadResult).n ∧
    (⟨3, ['S', 'S', 'H', 'x'], some "EOF"⟩ : SSHReadResult).buf.take 3
      = "SSH".toList := by
  refine ⟨by decide, by norm_num, by decide⟩

/-- C9 amended: the probe reports ready iff the TCP connection succeeds,
the 2-second read deadline is armed successfully, and the read of up to 4
bytes returns without error at least 3 bytes whose first three are the
ASCII characters `SSH`. -/
theorem isSSHReady_spec (conn : Option SSHProbeConn) :
    (isSSHReady conn = true ↔
      ∃ c, conn = some c ∧ c.setDeadlineOk = true ∧ c.read.err = none ∧
        3 ≤ c.read.n ∧ c.read.buf.take 3 = "SSH".toList) ∧
    (∀ port : Nat, sshProbeAddr port = "127.0.0.1:" ++ toString port) ∧
    sshReadDeadlineSeconds = 2 ∧ sshReadBufferBytes = 4 := by
  refine ⟨?_, fun _ => rfl, rfl, rfl⟩
  cases conn with
  | none => simp [isSSHReady]
  | some c =>
    cases hsd : c.setDeadlineOk with
    | false => simp [isSSHReady, hsd]
    | true => simp [isSSHReady, hsd, Bool.and_eq_true, beq_iff_eq,
        decide_eq_true_iff, and_assoc]

/-! ## Claim C10 -/

/-- C10: when sshfs is available and the namespace or pvc name fails
DNS-1123 validation, or the mount point does not exist, or the PVC cannot
be fetched or is not Bound, `Mount` returns an error with an empty effect
trace: no pod creation, no ephemeral-container patch, no port-forward, no
sshfs run. -/
theorem mount_validates_before_mutating (env : MountEnv) (ns pvcName mp : String)
    (hs : env.sshfsPresent = true)
    (h : isErr (ValidateKubernetesName ns "namespace") = true ∨
      isErr (ValidateKubernetesName pvcName "pvc-name") = true ∨
      env.mountPointExists = false ∨
      isErr (checkPVCUsage env.getPVC pvcName) = true) :
    (∃ e, (Mount env ns pvcName mp).1 = MountOutcome.ret (.error e)) ∧
    (Mount env ns pvcName mp).2 = [] := by
  unfold Mount
  rw [hs]
  simp only [Bool.true_eq_false, if_false]
  cases hv1 : ValidateKubernetesName ns "namespace" with
  | error e => exact ⟨⟨e, rfl⟩, rfl⟩
  | ok u1 =>
  cases hv2 : ValidateKubernetesName pvcName "pvc-name" with
  | error e => exact ⟨⟨e, rfl⟩, rfl⟩
  | ok u2 =>
  cases hmp : env.mountPointExists with
  | false => exact ⟨⟨"local mount point " ++ mp ++ " does not exist", rfl⟩, rfl⟩
  | true =>
  simp only [validateMountPoint, if_true]
  cases hbc : env.buildClient with
  | error e => exact ⟨⟨e, rfl⟩, rfl⟩
  | ok u3 =>
  cases hpvc : checkPVCUsage env.getPVC pvcName with
  | error e => exact ⟨⟨e, rfl⟩, rfl⟩
  | ok pvc =>
    exfalso
    rcases h with h | h | h | h
    · rw [hv1] at h; simp [isErr] at h
    · rw [hv2] at h; simp [isErr] at h
    · rw [hmp] at h; simp at h
    · rw [hpvc] at h; simp [isErr] at h

/-- Witness for C10: an invalid namespace (`Bad_NS`) with sshfs available;
`Mount` errors out with no effects. -/
theorem mount_validates_before_mutating_witness :
    (∃ e, (Mount ⟨true, true, .ok (), .ok ⟨"pvc-1", "Bound"⟩, .ok ⟨["ReadWriteMany"]⟩,
        .ok [], .ok (), .ok (), .ok (), .ok ⟨"w", []⟩, .ok (), .ok (),
        true, true, true⟩ "Bad_NS" "pvc-1" "/mnt/foo").1
      = MountOutcome.ret (.error e)) ∧
    (Mount ⟨true, true, .ok (), .ok ⟨"pvc-1", "Bound"⟩, .ok ⟨["ReadWriteMany"]⟩,
        .ok [], .ok (), .ok (), .ok (), .ok ⟨"w", []⟩, .ok (), .ok (),
        true, true, true⟩ "Bad_NS" "pvc-1" "/mnt/foo").2 = [] :=
  mount_validates_before_mutating _ "Bad_NS" "pvc-1" "/mnt/foo" rfl
    (Or.inl (by decide))

end PvMounter
